import Mathlib

/-
Verification of the session/audio orchestration engine of the Jarvis
voice-assistant repository.

The file src/services/jarvisService.ts contains two complete versions of the
JarvisService class, concatenated: the first (lines 1-484, with wake-word
logic) and the second (lines 485-848, without it).  Definitions below are a
shallow embedding of the first version unless placed in namespace V2; the
duplicated tool handlers that differ between the versions (handleFlashlight,
handleOpenApp) are embedded separately in namespaces V1 and V2.

Modelling conventions:
- The service is single threaded and event driven; each entry point
  (a public method call or a platform callback) is modelled as one atomic
  step on an explicit state record.
- Machine floating point times are modelled as rationals (milliseconds).
- The browser resources (microphone stream, camera stream, audio contexts,
  the speech recognition engine) are modelled by the fields the code reads
  of them: held or not, and the context lifecycle state.
- Fallible operations are modelled by their observable effect on the state;
  every function below is total, so a step that the code performs without
  throwing is a defined value of the function.
-/

namespace Jarvis

/-- The ConnectionState enum of src/types.ts. -/
inductive ConnectionState
  | DISCONNECTED
  | CONNECTING
  | CONNECTED
  | ERROR
deriving DecidableEq, Repr, Fintype

/-- Lifecycle state of a browser AudioContext as read by the code. -/
inductive CtxState
  | running
  | suspended
  | closed
deriving DecidableEq, Repr, Fintype

/-- The mutable fields of the first JarvisService relevant to the connection
state machine and resource lifecycle: connectionState, isWakeWordActive,
whether the speech recognition engine is running, whether the microphone
stream and the camera (flashlight) stream are held, and the two audio
contexts (none models the null reference). -/
structure ServiceState where
  connectionState : ConnectionState
  isWakeWordActive : Bool
  recogRunning : Bool
  stream : Bool
  videoStream : Bool
  inputAudioContext : Option CtxState
  outputAudioContext : Option CtxState
deriving DecidableEq, Repr

/-- Field initializers of JarvisService (lines 79-93 of the first version). -/
def initialState : ServiceState :=
  { connectionState := ConnectionState.DISCONNECTED
    isWakeWordActive := false
    recogRunning := false
    stream := false
    videoStream := false
    inputAudioContext := none
    outputAudioContext := none }

/-- A connection-state transition: the state before and after one call of
updateState (lines 449-452). -/
abbrev Transition := ConnectionState × ConnectionState

/-- JarvisService.updateState (lines 449-452): assigns connectionState and
fires onStateChange.  The returned list records the transition taken. -/
def updateState (c : ConnectionState) (s : ServiceState) :
    ServiceState × List Transition :=
  ({ s with connectionState := c }, [(s.connectionState, c)])

/-- JarvisService.startWakeWordDetection (lines 157-167): returns early when
CONNECTED or CONNECTING, otherwise sets isWakeWordActive and starts the
recognition engine (an already-started engine throws; the catch swallows it,
so the engine ends up running either way). -/
def startWakeWordDetection (s : ServiceState) : ServiceState :=
  if s.connectionState = ConnectionState.CONNECTED ∨
      s.connectionState = ConnectionState.CONNECTING then s
  else { s with isWakeWordActive := true, recogRunning := true }

/-- JarvisService.stopWakeWordDetection (lines 169-174): clears the active
flag and stops the engine (errors swallowed). -/
def stopWakeWordDetection (s : ServiceState) : ServiceState :=
  { s with isWakeWordActive := false, recogRunning := false }

/-- The context-closing logic of disconnect (lines 472-479): a context that
is non-null and not already closed is closed and the reference nulled; a
reference to an already-closed context is kept as is. -/
def closeCtx : Option CtxState → Option CtxState
  | some CtxState.closed => some CtxState.closed
  | _ => none

/-- JarvisService.disconnect (lines 454-483): stop the wake listener, stop
and drop all media tracks, close both audio contexts, transition to
DISCONNECTED, resume the wake listener. -/
def disconnect (s : ServiceState) : ServiceState × List Transition :=
  let s1 := stopWakeWordDetection s
  let s2 := { s1 with
      stream := false
      videoStream := false
      inputAudioContext := closeCtx s1.inputAudioContext
      outputAudioContext := closeCtx s1.outputAudioContext }
  let p := updateState ConnectionState.DISCONNECTED s2
  (startWakeWordDetection p.1, p.2)

/-- How one invocation of connect() (lines 177-268) can end: fail fast on a
missing API key, reach session initiation, or throw inside the try block
(for example microphone denial) and land in the catch. -/
inductive ConnectOutcome
  | missingKey
  | success
  | failure
deriving DecidableEq, Repr, Fintype

/-- JarvisService.connect (lines 177-268).  With the key missing it signals
ERROR and returns without touching the wake listener (the check precedes
stopWakeWordDetection).  Otherwise it stops the wake listener, transitions
to CONNECTING, acquires the audio contexts and the microphone stream, and
initiates the session; if an awaited step throws, the catch signals ERROR
and calls disconnect. -/
def connect (o : ConnectOutcome) (s : ServiceState) :
    ServiceState × List Transition :=
  match o with
  | ConnectOutcome.missingKey => updateState ConnectionState.ERROR s
  | ConnectOutcome.success =>
      let s1 := stopWakeWordDetection s
      let p := updateState ConnectionState.CONNECTING s1
      ({ p.1 with
          inputAudioContext := some CtxState.running
          outputAudioContext := some CtxState.running
          stream := true }, p.2)
  | ConnectOutcome.failure =>
      let s1 := stopWakeWordDetection s
      let p1 := updateState ConnectionState.CONNECTING s1
      let s2 := { p1.1 with
          inputAudioContext := some CtxState.running
          outputAudioContext := some CtxState.running }
      let p2 := updateState ConnectionState.ERROR s2
      let p3 := disconnect p2.1
      (p3.1, p1.2 ++ p2.2 ++ p3.2)

/-- JarvisService.handleOpen (lines 270-274): transition to CONNECTED and
start the capture pipeline. -/
def handleOpen (s : ServiceState) : ServiceState × List Transition :=
  updateState ConnectionState.CONNECTED s

/-- JarvisService.handleClose (lines 437-441): transition to DISCONNECTED,
then resume the wake listener. -/
def handleClose (s : ServiceState) : ServiceState × List Transition :=
  let p := updateState ConnectionState.DISCONNECTED s
  (startWakeWordDetection p.1, p.2)

/-- JarvisService.handleError (lines 443-447): transition to ERROR, then
resume the wake listener. -/
def handleError (s : ServiceState) : ServiceState × List Transition :=
  let p := updateState ConnectionState.ERROR s
  (startWakeWordDetection p.1, p.2)

/-- The recognition onend handler (lines 143-154): the engine has stopped;
if the active flag is set and the state is DISCONNECTED (both re-checked
when the delayed restart fires) the engine is started again. -/
def wakeOnEnd (s : ServiceState) : ServiceState :=
  let s1 := { s with recogRunning := false }
  if s1.isWakeWordActive ∧ s1.connectionState = ConnectionState.DISCONNECTED
  then { s1 with recogRunning := true }
  else s1

/-- The events that drive the service.  connectClick is a user-initiated
connect (App.tsx only invokes connect when the state is neither CONNECTED
nor CONNECTING); sessionOpen, sessionClose and sessionError are the
callbacks registered with ai.live.connect; disconnectCall is the public
disconnect, invoked from any state (App.tsx also calls it on unmount);
recogEnd and recogResult are speech-recognition engine callbacks, which
fire while the engine is running.  recogResult carries whether the
transcript contained a wake phrase and, if so, how the triggered
connect() ends. -/
inductive Event
  | connectClick (o : ConnectOutcome)
  | sessionOpen
  | sessionClose
  | sessionError
  | disconnectCall
  | recogEnd
  | recogResult (matched : Bool) (o : ConnectOutcome)
deriving DecidableEq, Repr, Fintype

/-- One atomic step of the service: none when the event cannot fire in
the given state.  The session callbacks carry no state guard at all: the
service keeps no handle to the session it initiates and disconnect()
never closes or cancels it, so a pending session's onopen (and later
onclose/onerror) can fire at any time — in particular after an
interleaved disconnect — and handleOpen, handleClose and handleError run
their updateState unconditionally.  Likewise the onresult handler (lines
123-137) checks only the transcript, never the connection state, before
calling connect().  The remaining guards are in the code: App.tsx
invokes connect only when the state is neither CONNECTED nor CONNECTING,
and the recognition engine delivers events only while running. -/
def step (s : ServiceState) : Event → Option (ServiceState × List Transition)
  | Event.connectClick o =>
      if s.connectionState = ConnectionState.CONNECTED ∨
          s.connectionState = ConnectionState.CONNECTING then none
      else some (connect o s)
  | Event.sessionOpen => some (handleOpen s)
  | Event.sessionClose => some (handleClose s)
  | Event.sessionError => some (handleError s)
  | Event.disconnectCall => some (disconnect s)
  | Event.recogEnd =>
      if s.recogRunning then some (wakeOnEnd s, []) else none
  | Event.recogResult matched o =>
      if s.recogRunning then
        some (if matched then connect o s else (s, []))
      else none

/-- The race-free scheduling assumption: a session callback fires while
the service is still in the connection state its connect attempt left —
onopen during CONNECTING, onclose and onerror during CONNECTED — that
is, no disconnect or other event intervened between session initiation
and the callback.  This is an assumption about environment scheduling,
not a check performed by the code. -/
def sessionEventExpected (s : ServiceState) : Event → Bool
  | Event.sessionOpen =>
      s.connectionState = ConnectionState.CONNECTING
  | Event.sessionClose =>
      s.connectionState = ConnectionState.CONNECTED
  | Event.sessionError =>
      s.connectionState = ConnectionState.CONNECTED
  | _ => true

/-- The race-free fragment of the behaviour: exactly the steps of the
full model whose session callbacks fire in the expected state. -/
def orderedStep (s : ServiceState) (e : Event) :
    Option (ServiceState × List Transition) :=
  if sessionEventExpected s e then step s e else none

/-- Run a list of events from a state, collecting every transition taken. -/
def run (s : ServiceState) : List Event → Option (ServiceState × List Transition)
  | [] => some (s, [])
  | e :: rest =>
      match step s e with
      | none => none
      | some (s1, tr) =>
          match run s1 rest with
          | none => none
          | some (s2, tr2) => some (s2, tr ++ tr2)

/-- States reachable from the field initializers by steps of the full
model, racy session-callback interleavings included. -/
inductive Reachable : ServiceState → Prop
  | init : Reachable initialState
  | next {s : ServiceState} {e : Event} {s' : ServiceState}
      {tr : List Transition} :
      Reachable s → step s e = some (s', tr) → Reachable s'

/-- States reachable from the field initializers by race-free steps. -/
inductive OrderedReachable : ServiceState → Prop
  | init : OrderedReachable initialState
  | next {s : ServiceState} {e : Event} {s' : ServiceState}
      {tr : List Transition} :
      OrderedReachable s → orderedStep s e = some (s', tr) →
      OrderedReachable s'

/-- A connection state in which the wake listener may run. -/
def connIdle (c : ConnectionState) : Bool :=
  match c with
  | ConnectionState.DISCONNECTED => true
  | ConnectionState.ERROR => true
  | _ => false

/-- Invariant of the race-free fragment: whenever the recognition engine
is running, the connection state is DISCONNECTED or ERROR and the active
flag is set.  The full model violates it: an uncancelled session that
opens after an interleaved disconnect leaves the engine running while
CONNECTED. -/
def wakeInv (s : ServiceState) : Bool :=
  !s.recogRunning || (connIdle s.connectionState && s.isWakeWordActive)

/-- Invariant of the full model: whenever the recognition engine is
running, the active flag is set (no step of the service starts the engine
without setting the flag, or clears the flag without stopping it). -/
def wakeFlagInv (s : ServiceState) : Bool :=
  !s.recogRunning || s.isWakeWordActive

/-- The six transition edges asserted by the specification. -/
def claimedEdge : Transition → Bool
  | (ConnectionState.DISCONNECTED, ConnectionState.CONNECTING) => true
  | (ConnectionState.CONNECTING, ConnectionState.CONNECTED) => true
  | (ConnectionState.CONNECTING, ConnectionState.ERROR) => true
  | (ConnectionState.CONNECTED, ConnectionState.DISCONNECTED) => true
  | (ConnectionState.CONNECTED, ConnectionState.ERROR) => true
  | (ConnectionState.ERROR, ConnectionState.DISCONNECTED) => true
  | _ => false

/-- The transition discipline of the race-free fragment: the six claimed
edges plus fail-fast on a missing key (DISCONNECTED to ERROR, ERROR to
ERROR), reconnecting from ERROR (ERROR to CONNECTING), and disconnect
from CONNECTING or from an already disconnected state.  Racy executions
exceed this set: an uncancelled session opening after an interleaved
disconnect takes DISCONNECTED to CONNECTED. -/
def amendedEdge : Transition → Bool
  | (ConnectionState.DISCONNECTED, ConnectionState.ERROR) => true
  | (ConnectionState.ERROR, ConnectionState.ERROR) => true
  | (ConnectionState.ERROR, ConnectionState.CONNECTING) => true
  | (ConnectionState.CONNECTING, ConnectionState.DISCONNECTED) => true
  | (ConnectionState.DISCONNECTED, ConnectionState.DISCONNECTED) => true
  | p => claimedEdge p

/-- Bundled check for the race-free fragment: from a state satisfying
wakeInv, an ordered step preserves wakeInv and only takes amended edges. -/
def orderedStepOk (s : ServiceState) (e : Event) : Bool :=
  match orderedStep s e with
  | none => true
  | some (s', tr) => wakeInv s' && tr.all amendedEdge

/-- Bundled check for the full model: any step preserves wakeFlagInv. -/
def flagStepOk (s : ServiceState) (e : Event) : Bool :=
  match step s e with
  | none => true
  | some (s', _) => wakeFlagInv s'

/-- Playback scheduler state of JarvisService: the nextStartTime cursor
and the set of active scheduled segments, each recorded as the pair
(startTime, duration).  Times are modelled in milliseconds as rationals. -/
structure PlaybackState where
  nextStartTime : ℚ
  sources : List (ℚ × ℚ)
deriving DecidableEq, Repr

/-- Field initializers (lines 84-85): nextStartTime = 0 and an empty
source set; connect() also resets nextStartTime to 0 (line 200). -/
def playbackInit : PlaybackState := ⟨0, []⟩

/-- The audio branch of handleMessage (lines 334-350) for one inbound
audio-bearing message: nextStartTime becomes max(nextStartTime, current
playback clock time); the decoded segment starts exactly at nextStartTime;
nextStartTime advances by the segment duration; the segment joins the
source set.  Returns the new state and the scheduled start time. -/
def scheduleAudioChunk (currentTime duration : ℚ) (s : PlaybackState) :
    PlaybackState × ℚ :=
  let start := max s.nextStartTime currentTime
  (⟨start + duration, s.sources ++ [(start, duration)]⟩, start)

/-- The onended callback (line 350): a segment that completes naturally
is removed from the source set. -/
def sourceEnded (seg : ℚ × ℚ) (s : PlaybackState) : PlaybackState :=
  ⟨s.nextStartTime, s.sources.erase seg⟩

/-- The interruption branch of handleMessage (lines 397-402): every
source receives stop(), the set is cleared, nextStartTime is reset to 0.
Returns the new state and the list of segments that were stopped. -/
def handleInterrupted (s : PlaybackState) : PlaybackState × List (ℚ × ℚ) :=
  (⟨0, []⟩, s.sources)

/-- Schedule several segments arriving back to back (the playback clock
not advancing between them), returning the scheduled start times. -/
def scheduleChunks (currentTime : ℚ) (durs : List ℚ) (s : PlaybackState) :
    PlaybackState × List ℚ :=
  match durs with
  | [] => (s, [])
  | d :: rest =>
      let p := scheduleAudioChunk currentTime d s
      let q := scheduleChunks currentTime rest p.1
      (q.1, p.2 :: q.2)

/-- VAD state of JarvisService (lines 88-89): the isSpeaking flag and the
pending silence debounce timer, recorded as the absolute time in
milliseconds at which it fires. -/
structure VadState where
  isSpeaking : Bool
  silenceTimer : Option ℚ
deriving DecidableEq, Repr

/-- Initial VAD state: not speaking, no pending timer. -/
def vadInit : VadState := ⟨false, none⟩

/-- Sum of squared samples of one audio frame (lines 308-311). -/
def sumSquares (samples : List ℚ) : ℚ :=
  (samples.map fun x => x * x).sum

/-- The rms > 0.01 test of line 314.  rms = sqrt(sumSquares / n), and for
a frame sqrt(sumSquares / n) > 1/100 holds exactly when
n < 10000 * sumSquares, which states the comparison without the square
root. -/
def rmsExceedsThreshold (samples : List ℚ) : Bool :=
  decide ((samples.length : ℚ) < 10000 * sumSquares samples)

/-- A pending debounce callback whose deadline lies strictly before the
current instant has already fired: isSpeaking became false and a speaking
stopped notification was emitted at the deadline (lines 320-323).  The
model fires timers lazily when the next frame is processed; every emitted
event carries the time at which it happened, so the observable trace is
that of the eager timers of the code. -/
def fireDueTimer (now : ℚ) (s : VadState) : VadState × List (ℚ × Bool) :=
  match s.silenceTimer with
  | some d => if d < now then (⟨false, none⟩, [(d, false)]) else (s, [])
  | none => (s, [])

/-- One frame through the VAD (lines 314-324) at time t with
loud = (rms > 0.01): an above-threshold frame flips isSpeaking to true,
emitting a speaking started notification only when it was false, and
(re)arms the 400 ms debounce timer, cancelling a pending one; a quiet
frame changes nothing. -/
def vadFrame (t : ℚ) (loud : Bool) (s : VadState) :
    VadState × List (ℚ × Bool) :=
  let p := fireDueTimer t s
  if loud then
    if p.1.isSpeaking then (⟨true, some (t + 400)⟩, p.2)
    else (⟨true, some (t + 400)⟩, p.2 ++ [(t, true)])
  else p

/-- The VAD part of one onaudioprocess callback: the loudness comes from
the rms of the frame samples. -/
def processAudioFrame (t : ℚ) (samples : List ℚ) (s : VadState) :
    VadState × List (ℚ × Bool) :=
  vadFrame t (rmsExceedsThreshold samples) s

/-- Feed a sequence of timed frames through the VAD, collecting the
speaking notifications. -/
def vadRun (frames : List (ℚ × Bool)) (s : VadState) :
    VadState × List (ℚ × Bool) :=
  match frames with
  | [] => (s, [])
  | f :: rest =>
      let p := vadFrame f.1 f.2 s
      let q := vadRun rest p.1
      (q.1, p.2 ++ q.2)

/-- Observe the VAD at time tEnd after the last frame: a pending debounce
timer whose deadline has been reached has fired by then. -/
def vadFinish (tEnd : ℚ) (s : VadState) : VadState × List (ℚ × Bool) :=
  match s.silenceTimer with
  | some d => if d ≤ tEnd then (⟨false, none⟩, [(d, false)]) else (s, [])
  | none => (s, [])

/-- Times of successive above-threshold frames, each arriving no later
than the debounce deadline armed by its predecessor (that is, exceedances
at most 400 ms apart). -/
def chainOk : ℚ → List ℚ → Prop
  | _, [] => True
  | d, t :: rest => t ≤ d ∧ chainOk (t + 400) rest

/-- The debounce deadline pending after the last of the frame times, or d
when there is none. -/
def lastDeadline (d : ℚ) (ts : List ℚ) : ℚ :=
  ts.foldl (fun _ t => t + 400) d

/-- Flashlight-related state: the held camera stream (as an id), a
counter assigning fresh ids to successive getUserMedia video
acquisitions, and the ids of streams whose tracks have been stopped. -/
structure FlashlightState where
  videoStream : Option ℕ
  nextStreamId : ℕ
  stoppedStreams : List ℕ
deriving DecidableEq, Repr

/-- Initial flashlight state: no stream ever acquired. -/
def flashlightInit : FlashlightState := ⟨none, 0, []⟩

/-- A stream is leaked when it was acquired but is neither stopped nor
still referenced by videoStream. -/
def streamLeaked (s : FlashlightState) (sid : ℕ) : Bool :=
  decide (sid < s.nextStreamId ∧ sid ∉ s.stoppedStreams ∧
    s.videoStream ≠ some sid)

/-- The videoStream release of disconnect (lines 464-469): stop the
tracks of a held camera stream and null the reference. -/
def disconnectVideoRelease (s : FlashlightState) : FlashlightState :=
  match s.videoStream with
  | some sid => ⟨none, s.nextStreamId, sid :: s.stoppedStreams⟩
  | none => s

namespace V1

/-- handleFlashlight of the first JarvisService (lines 419-435), success
path: OFF stops the tracks of the held stream and clears the reference;
ON unconditionally acquires a fresh camera stream and overwrites the
reference, regardless of whether one is already held. -/
def handleFlashlight (turnOn : Bool) (s : FlashlightState) :
    FlashlightState :=
  if turnOn then
    { s with videoStream := some s.nextStreamId,
             nextStreamId := s.nextStreamId + 1 }
  else
    match s.videoStream with
    | some sid => ⟨none, s.nextStreamId, sid :: s.stoppedStreams⟩
    | none => s

end V1

namespace V2

/-- handleFlashlight of the second JarvisService (lines 786-819), success
path: OFF as in the first version; ON acquires a camera stream only when
none is held. -/
def handleFlashlight (turnOn : Bool) (s : FlashlightState) :
    FlashlightState :=
  if turnOn then
    match s.videoStream with
    | some _ => s
    | none =>
        { s with videoStream := some s.nextStreamId,
                 nextStreamId := s.nextStreamId + 1 }
  else
    match s.videoStream with
    | some sid => ⟨none, s.nextStreamId, sid :: s.stoppedStreams⟩
    | none => s

end V2

/-- The result objects the dispatcher of the first JarvisService (lines
356-395) can attach to a tool response: the initial empty object, the
status success object, the scanSystem report, the status opened object
and the status sent object. -/
inductive ToolResultValue
  | emptyObj
  | statusSuccess
  | scanReport
  | statusOpened
  | statusSent
deriving DecidableEq, Repr

/-- An inbound function call: id and name (the arguments only affect the
side effects of the handlers, never which response is sent). -/
structure ToolCall where
  id : String
  name : String
deriving DecidableEq, Repr

/-- A tool response sent back over the session, keyed by the call id. -/
structure ToolResponse where
  id : String
  name : String
  result : ToolResultValue
deriving DecidableEq, Repr

/-- Names of the declared tools (the functionDeclarations list of line
248). -/
def declaredToolNames : List String :=
  ["toggleTheme", "scanSystem", "searchDatabase", "openApp",
    "controlFlashlight", "sendNotification"]

/-- App names declared in the openApp tool schema (lines 36-51). -/
def openAppNames : List String :=
  ["YOUTUBE", "GOOGLE", "MAPS", "PHONE", "SMS", "WHATSAPP", "SPOTIFY",
    "CAMERA"]

namespace V1

/-- The result value the dispatcher of the first JarvisService computes
for a call name (lines 359-382): the if/else chain covers toggleTheme,
scanSystem, openApp, controlFlashlight and sendNotification; any other
name (searchDatabase included) keeps the initial empty object. -/
def dispatchToolResult (name : String) : ToolResultValue :=
  if name = "toggleTheme" then ToolResultValue.statusSuccess
  else if name = "scanSystem" then ToolResultValue.scanReport
  else if name = "openApp" then ToolResultValue.statusOpened
  else if name = "controlFlashlight" then ToolResultValue.statusSuccess
  else if name = "sendNotification" then ToolResultValue.statusSent
  else ToolResultValue.emptyObj

/-- The tool branch of handleMessage (lines 356-395): for every function
call of the message, the handler chain runs and then a tool response
carrying the call id, the call name and the computed result is sent over
the session; the send is unconditional, outside the if/else chain. -/
def handleToolCalls (calls : List ToolCall) : List ToolResponse :=
  calls.map fun fc => ⟨fc.id, fc.name, dispatchToolResult fc.name⟩

/-- handleOpenApp of the first JarvisService (lines 405-417): the switch
maps six of the app names to a URL passed to window.open, with the query
encoded by the browser function given here as enc (the code uses
encodeURIComponent); SPOTIFY, CAMERA and any other name hit the default
case, which returns without opening anything.  A JavaScript string is
truthy exactly when nonempty, hence the comparisons with the empty
string. -/
def handleOpenApp (enc : String → String) (appName query : String) :
    Option String :=
  if appName = "YOUTUBE" then
    some (if query ≠ "" then
      "https://www.youtube.com/results?search_query=" ++ enc query
    else "https://www.youtube.com")
  else if appName = "GOOGLE" then
    some (if query ≠ "" then
      "https://www.google.com/search?q=" ++ enc query
    else "https://www.google.com")
  else if appName = "MAPS" then
    some (if query ≠ "" then
      "https://www.google.com/maps/search/" ++ enc query
    else "https://maps.google.com")
  else if appName = "PHONE" then some ("tel:" ++ query)
  else if appName = "SMS" then some ("sms:" ++ query)
  else if appName = "WHATSAPP" then some ("https://wa.me/" ++ query)
  else none

end V1

set_option maxHeartbeats 4000000 in
set_option maxRecDepth 10000 in
lemma orderedStep_preserves (s : ServiceState) (e : Event)
    (h : wakeInv s = true) : orderedStepOk s e = true := by
  obtain ⟨c, a, r, st, vs, ic, oc⟩ := s
  revert c a r st vs ic oc e h
  decide

set_option maxHeartbeats 4000000 in
set_option maxRecDepth 10000 in
lemma step_preserves_flag (s : ServiceState) (e : Event)
    (h : wakeFlagInv s = true) : flagStepOk s e = true := by
  obtain ⟨c, a, r, st, vs, ic, oc⟩ := s
  revert c a r st vs ic oc e h
  decide

lemma ordered_reachable_wakeInv {s : ServiceState}
    (h : OrderedReachable s) : wakeInv s = true := by
  induction h with
  | init => decide
  | next hr hstep ih =>
      rename_i s e s' tr
      have h2 := orderedStep_preserves s e ih
      unfold orderedStepOk at h2
      rw [hstep, Bool.and_eq_true] at h2
      exact h2.1

lemma ordered_step_edges {s : ServiceState} {e : Event}
    {s' : ServiceState} {tr : List Transition} (hs : OrderedReachable s)
    (hstep : orderedStep s e = some (s', tr)) :
    tr.all amendedEdge = true := by
  have h2 := orderedStep_preserves s e (ordered_reachable_wakeInv hs)
  unfold orderedStepOk at h2
  rw [hstep, Bool.and_eq_true] at h2
  exact h2.2

lemma reachable_wakeFlagInv {s : ServiceState} (h : Reachable s) :
    wakeFlagInv s = true := by
  induction h with
  | init => decide
  | next hr hstep ih =>
      rename_i s e s' tr
      have h2 := step_preserves_flag s e ih
      unfold flagStepOk at h2
      rw [hstep] at h2
      exact h2

/-- Claim C1, counterexample: calling connect() from the initial
DISCONNECTED state with the API key missing performs the transition
DISCONNECTED to ERROR (lines 178-181), an edge the claim excludes. -/
theorem connect_without_key_takes_unclaimed_edge :
    run initialState [Event.connectClick ConnectOutcome.missingKey] =
      some (⟨ConnectionState.ERROR, false, false, false, false, none, none⟩,
        [(ConnectionState.DISCONNECTED, ConnectionState.ERROR)]) ∧
    claimedEdge (ConnectionState.DISCONNECTED, ConnectionState.ERROR) =
      false := by
  decide

/-- Claim C1 (amended): under the race-free assumption that each session
callback fires while the service is still in the connection state its
connect attempt left (open during CONNECTING, close and error during
CONNECTED), every ConnectionState transition performed by a step from a
reachable state is one of the edges DISCONNECTED to CONNECTING,
CONNECTING to CONNECTED, CONNECTING to ERROR, CONNECTED to DISCONNECTED,
CONNECTED to ERROR, ERROR to DISCONNECTED, together with DISCONNECTED to
ERROR and ERROR to ERROR (fail-fast when the API key is missing), ERROR
to CONNECTING (a new connect attempt from the ERROR state), and
CONNECTING to DISCONNECTED and DISCONNECTED to DISCONNECTED (disconnect
called in those states).  Without the assumption the discipline fails:
disconnect never cancels the initiated session, so its onopen can fire
after a disconnect interleaved into the connect attempt, taking the
additional edge DISCONNECTED to CONNECTED (second conjunct). -/
theorem reachable_transitions_use_amended_edges :
    (∀ (s : ServiceState) (e : Event) (s' : ServiceState)
      (tr : List Transition), OrderedReachable s →
      orderedStep s e = some (s', tr) → tr.all amendedEdge = true) ∧
    (run initialState
        [Event.connectClick ConnectOutcome.success, Event.disconnectCall,
          Event.sessionOpen] =
      some (⟨ConnectionState.CONNECTED, true, true, false, false, none,
          none⟩,
        [(ConnectionState.DISCONNECTED, ConnectionState.CONNECTING),
          (ConnectionState.CONNECTING, ConnectionState.DISCONNECTED),
          (ConnectionState.DISCONNECTED, ConnectionState.CONNECTED)]) ∧
      amendedEdge
        (ConnectionState.DISCONNECTED, ConnectionState.CONNECTED) =
        false) :=
  ⟨fun _ _ _ _ hs hstep => ordered_step_edges hs hstep, by decide⟩

/-- Witness for the amended C1: a connect click from the initial state
takes the DISCONNECTED to CONNECTING edge, which is amended-allowed. -/
theorem reachable_transitions_use_amended_edges_witness :
    ([(ConnectionState.DISCONNECTED, ConnectionState.CONNECTING)] :
      List Transition).all amendedEdge = true :=
  reachable_transitions_use_amended_edges.1 initialState
    (Event.connectClick ConnectOutcome.success)
    ⟨ConnectionState.CONNECTING, false, false, true, false,
      some CtxState.running, some CtxState.running⟩
    [(ConnectionState.DISCONNECTED, ConnectionState.CONNECTING)]
    OrderedReachable.init (by decide)

/-- Claim C3, counterexample: a disconnect interleaved into a pending
connect (the user clicks Terminate between session initiation and the
websocket opening) leaves the service DISCONNECTED with the wake engine
restarted; the uncancelled session's onopen then sets CONNECTED without
stopping the engine, and a recognized wake phrase invokes connect() —
which checks no state (lines 123-137) — while CONNECTED. -/
theorem wake_connect_fires_while_connected :
    run initialState
      [Event.connectClick ConnectOutcome.success, Event.disconnectCall,
        Event.sessionOpen] =
      some (⟨ConnectionState.CONNECTED, true, true, false, false, none,
          none⟩,
        [(ConnectionState.DISCONNECTED, ConnectionState.CONNECTING),
          (ConnectionState.CONNECTING, ConnectionState.DISCONNECTED),
          (ConnectionState.DISCONNECTED, ConnectionState.CONNECTED)]) ∧
    (⟨ConnectionState.CONNECTED, true, true, false, false, none, none⟩ :
      ServiceState).recogRunning = true ∧
    step
      (⟨ConnectionState.CONNECTED, true, true, false, false, none,
        none⟩ : ServiceState)
      (Event.recogResult true ConnectOutcome.success) =
      some (⟨ConnectionState.CONNECTING, false, false, true, false,
        some CtxState.running, some CtxState.running⟩,
        [(ConnectionState.CONNECTED, ConnectionState.CONNECTING)]) := by
  decide

/-- Claim C3 (amended): the onresult handler checks only the transcript,
so a wake result invokes connect() whenever the engine is running; under
the race-free assumption that each session callback fires in the
connection state its connect attempt left, the engine runs only while
DISCONNECTED or ERROR, so connect() is wake-triggered only in those
states; without that assumption an uncancelled session opening after an
interleaved disconnect lets a wake phrase trigger connect() while
CONNECTED. -/
theorem wake_result_connect_only_while_idle (s : ServiceState)
    (o : ConnectOutcome) (out : ServiceState × List Transition)
    (hs : OrderedReachable s)
    (h : orderedStep s (Event.recogResult true o) = some out) :
    s.connectionState ≠ ConnectionState.CONNECTING ∧
    s.connectionState ≠ ConnectionState.CONNECTED := by
  have hstep : step s (Event.recogResult true o) = some out := by
    unfold orderedStep at h
    simpa [sessionEventExpected] using h
  have hr : s.recogRunning = true := by
    cases hrr : s.recogRunning
    · rw [step] at hstep
      simp [hrr] at hstep
    · rfl
  have hinv := ordered_reachable_wakeInv hs
  unfold wakeInv at hinv
  rw [hr] at hinv
  simp only [Bool.not_true, Bool.false_or, Bool.and_eq_true] at hinv
  constructor <;> intro hc <;> rw [hc] at hinv <;>
    simp [connIdle] at hinv

/-- Witness for the amended C3: the state reached by a plain disconnect
from the initial state has the recognition engine running, and a wake
result step fires from it while DISCONNECTED. -/
theorem wake_result_connect_only_while_idle_witness :
    (⟨ConnectionState.DISCONNECTED, true, true, false, false, none, none⟩ :
        ServiceState).connectionState ≠ ConnectionState.CONNECTING ∧
    (⟨ConnectionState.DISCONNECTED, true, true, false, false, none, none⟩ :
        ServiceState).connectionState ≠ ConnectionState.CONNECTED :=
  wake_result_connect_only_while_idle
    ⟨ConnectionState.DISCONNECTED, true, true, false, false, none, none⟩
    ConnectOutcome.missingKey
    (⟨ConnectionState.ERROR, true, true, false, false, none, none⟩,
      [(ConnectionState.DISCONNECTED, ConnectionState.ERROR)])
    (OrderedReachable.next OrderedReachable.init
      (show orderedStep initialState Event.disconnectCall =
          some (⟨ConnectionState.DISCONNECTED, true, true, false, false,
            none, none⟩,
            [(ConnectionState.DISCONNECTED, ConnectionState.DISCONNECTED)])
        from by decide))
    (by decide)

/-- Claim C4, counterexample: after connect, session open and a session
error, the service is in state ERROR (handleError, lines 443-447, resumes
the wake listener after transitioning to ERROR), yet the recognition
engine is running, so the listener runs while the connection state is not
DISCONNECTED. -/
theorem wake_listener_running_outside_disconnected :
    run initialState
      [Event.connectClick ConnectOutcome.success, Event.sessionOpen,
        Event.sessionError] =
      some (⟨ConnectionState.ERROR, true, true, true, false,
        some CtxState.running, some CtxState.running⟩,
        [(ConnectionState.DISCONNECTED, ConnectionState.CONNECTING),
          (ConnectionState.CONNECTING, ConnectionState.CONNECTED),
          (ConnectionState.CONNECTED, ConnectionState.ERROR)]) ∧
    (⟨ConnectionState.ERROR, true, true, true, false,
      some CtxState.running, some CtxState.running⟩ :
        ServiceState).recogRunning = true ∧
    ¬ (⟨ConnectionState.ERROR, true, true, true, false,
      some CtxState.running, some CtxState.running⟩ :
        ServiceState).connectionState = ConnectionState.DISCONNECTED := by
  decide

/-- Claim C4 (amended): in every reachable state of the full model, a
running recognition engine implies that the isWakeWordActive flag is
true; under the race-free assumption that each session callback fires in
the connection state its connect attempt left, the connection state is
moreover DISCONNECTED or ERROR.  Without the assumption no
connection-state restriction holds: handleOpen never stops the listener,
so an uncancelled session opening after an interleaved disconnect leaves
the engine running while CONNECTED. -/
theorem wake_listener_invariants :
    (∀ s : ServiceState, Reachable s → s.recogRunning = true →
      s.isWakeWordActive = true) ∧
    (∀ s : ServiceState, OrderedReachable s → s.recogRunning = true →
      (s.connectionState = ConnectionState.DISCONNECTED ∨
        s.connectionState = ConnectionState.ERROR) ∧
      s.isWakeWordActive = true) := by
  constructor
  · intro s hs hr
    have h := reachable_wakeFlagInv hs
    unfold wakeFlagInv at h
    rw [hr] at h
    simpa using h
  · intro s hs hr
    have hinv := ordered_reachable_wakeInv hs
    unfold wakeInv at hinv
    rw [hr] at hinv
    simp only [Bool.not_true, Bool.false_or, Bool.and_eq_true] at hinv
    refine ⟨?_, hinv.2⟩
    have h1 := hinv.1
    cases hc : s.connectionState <;> rw [hc] at h1 <;>
      simp [connIdle] at h1 <;> simp

/-- Witness for the amended C4: the first conjunct applied at the racy
reachable state in which the engine runs while CONNECTED, the second at
the race-free state produced by a disconnect from the initial state. -/
theorem wake_listener_invariants_witness :
    (⟨ConnectionState.CONNECTED, true, true, false, false, none, none⟩ :
      ServiceState).isWakeWordActive = true ∧
    ((⟨ConnectionState.DISCONNECTED, true, true, false, false, none,
        none⟩ : ServiceState).connectionState =
          ConnectionState.DISCONNECTED ∨
      (⟨ConnectionState.DISCONNECTED, true, true, false, false, none,
        none⟩ : ServiceState).connectionState = ConnectionState.ERROR) ∧
    (⟨ConnectionState.DISCONNECTED, true, true, false, false, none,
      none⟩ : ServiceState).isWakeWordActive = true :=
  ⟨wake_listener_invariants.1
    ⟨ConnectionState.CONNECTED, true, true, false, false, none, none⟩
    (Reachable.next
      (Reachable.next
        (Reachable.next Reachable.init
          (show step initialState
              (Event.connectClick ConnectOutcome.success) =
              some (⟨ConnectionState.CONNECTING, false, false, true,
                false, some CtxState.running, some CtxState.running⟩,
                [(ConnectionState.DISCONNECTED,
                  ConnectionState.CONNECTING)])
            from by decide))
        (show step
            (⟨ConnectionState.CONNECTING, false, false, true, false,
              some CtxState.running, some CtxState.running⟩ :
              ServiceState) Event.disconnectCall =
            some (⟨ConnectionState.DISCONNECTED, true, true, false,
              false, none, none⟩,
              [(ConnectionState.CONNECTING,
                ConnectionState.DISCONNECTED)])
          from by decide))
      (show step
          (⟨ConnectionState.DISCONNECTED, true, true, false, false,
            none, none⟩ : ServiceState) Event.sessionOpen =
          some (⟨ConnectionState.CONNECTED, true, true, false, false,
            none, none⟩,
            [(ConnectionState.DISCONNECTED, ConnectionState.CONNECTED)])
        from by decide))
    (by decide),
   wake_listener_invariants.2
    ⟨ConnectionState.DISCONNECTED, true, true, false, false, none, none⟩
    (OrderedReachable.next OrderedReachable.init
      (show orderedStep initialState Event.disconnectCall =
          some (⟨ConnectionState.DISCONNECTED, true, true, false, false,
            none, none⟩,
            [(ConnectionState.DISCONNECTED,
              ConnectionState.DISCONNECTED)])
        from by decide))
    (by decide)⟩

/-- Claim C8: disconnect (lines 454-483) is a total function of the
service state (the model of: it never throws) and from every state, in
particular any ConnectionState, it leaves the state DISCONNECTED, the
microphone and video streams stopped and null, and both audio contexts
closed or null; a further disconnect is the identity on the state (so any
number of repeated calls is safe), taking only the DISCONNECTED to
DISCONNECTED self-transition. -/
theorem disconnect_idempotent_and_safe (s : ServiceState) :
    (disconnect s).1.connectionState = ConnectionState.DISCONNECTED ∧
    (disconnect s).1.stream = false ∧
    (disconnect s).1.videoStream = false ∧
    ((disconnect s).1.inputAudioContext = none ∨
      (disconnect s).1.inputAudioContext = some CtxState.closed) ∧
    ((disconnect s).1.outputAudioContext = none ∨
      (disconnect s).1.outputAudioContext = some CtxState.closed) ∧
    disconnect (disconnect s).1 = ((disconnect s).1,
      [(ConnectionState.DISCONNECTED, ConnectionState.DISCONNECTED)]) := by
  obtain ⟨c, a, r, st, vs, ic, oc⟩ := s
  revert c a r st vs ic oc
  decide

/-- Claim C5: each inbound audio segment is scheduled to start at
max(nextStartTime, current playback clock time), nextStartTime then
advances by exactly the segment duration, and the segment joins the
active set; consequently three segments of durations 500, 300 and 700 ms
arriving back to back with the clock idle at 0 are scheduled at 0, 500
and 800 ms, with no gap and no overlap. -/
theorem playback_schedule_gapless :
    (∀ (currentTime duration : ℚ) (s : PlaybackState),
      (scheduleAudioChunk currentTime duration s).2 =
        max s.nextStartTime currentTime ∧
      (scheduleAudioChunk currentTime duration s).1.nextStartTime =
        max s.nextStartTime currentTime + duration ∧
      (scheduleAudioChunk currentTime duration s).1.sources =
        s.sources ++ [(max s.nextStartTime currentTime, duration)]) ∧
    (scheduleChunks 0 [500, 300, 700] playbackInit).2 = [0, 500, 800] := by
  refine ⟨fun c d s => ⟨rfl, rfl, rfl⟩, ?_⟩
  norm_num [scheduleChunks, scheduleAudioChunk, playbackInit]

/-- Claim C6: processing an interruption message stops every source in
the active set, leaves the set empty and resets nextStartTime to 0, so
that a segment arriving next is scheduled at the live clock time rather
than the previously accumulated offset. -/
theorem interruption_flushes_playback :
    (∀ s : PlaybackState,
      handleInterrupted s = (⟨0, []⟩, s.sources)) ∧
    (∀ (s : PlaybackState) (currentTime duration : ℚ),
      0 ≤ currentTime →
      (scheduleAudioChunk currentTime duration
        (handleInterrupted s).1).2 = currentTime) := by
  refine ⟨fun s => rfl, fun s c d hc => ?_⟩
  simp [handleInterrupted, scheduleAudioChunk, max_eq_right hc]

/-- Witness for C6: the interruption arriving after segments (0, 500) and
(500, 300) with the cursor at 800 clears both and the next segment is
scheduled at the live clock time 650, not at the stale 800 mark. -/
theorem interruption_flushes_playback_witness :
    handleInterrupted ⟨800, [(0, 500), (500, 300)]⟩ =
      (⟨0, []⟩, [(0, 500), (500, 300)]) ∧
    (scheduleAudioChunk 650 700
      (handleInterrupted (⟨800, [(0, 500), (500, 300)]⟩ :
        PlaybackState)).1).2 = 650 :=
  ⟨interruption_flushes_playback.1 _,
    interruption_flushes_playback.2 ⟨800, [(0, 500), (500, 300)]⟩ 650 700
      (by norm_num)⟩

lemma vadRun_loud_chain (ts : List ℚ) (d : ℚ) (h : chainOk d ts) :
    vadRun (ts.map fun t => (t, true)) ⟨true, some d⟩ =
      (⟨true, some (lastDeadline d ts)⟩, []) := by
  induction ts generalizing d with
  | nil => rfl
  | cons t rest ih =>
      obtain ⟨h1, h2⟩ := h
      have hlt : ¬ d < t := not_lt.mpr h1
      simp [vadRun, vadFrame, fireDueTimer, hlt, ih _ h2, lastDeadline]

/-- Claim C7: a frame whose rms exceeds 0.01 flips the speaking state to
true, emitting a notification only if it was false, and (re)arms a 400 ms
debounce timer cancelling any pending one; the speaking state flips back
to false only when a debounce timer expires 400 ms after the last
above-threshold frame: a quiet frame before the deadline changes nothing,
and for any run of above-threshold frames at most 400 ms apart the only
events are one speaking started at the first frame and one speaking
stopped exactly 400 ms after the last frame. -/
theorem vad_debounce_behaviour :
    (∀ (t : ℚ) (samples : List ℚ), rmsExceedsThreshold samples = true →
      processAudioFrame t samples vadInit =
        (⟨true, some (t + 400)⟩, [(t, true)])) ∧
    (∀ (t d : ℚ) (samples : List ℚ), rmsExceedsThreshold samples = true →
      t ≤ d → processAudioFrame t samples ⟨true, some d⟩ =
        (⟨true, some (t + 400)⟩, [])) ∧
    (∀ (t d : ℚ) (samples : List ℚ), rmsExceedsThreshold samples = false →
      t ≤ d → processAudioFrame t samples ⟨true, some d⟩ =
        (⟨true, some d⟩, [])) ∧
    (∀ (t0 : ℚ) (rest : List ℚ) (tEnd : ℚ), chainOk (t0 + 400) rest →
      lastDeadline (t0 + 400) rest ≤ tEnd →
      vadRun ((t0 :: rest).map fun t => (t, true)) vadInit =
        (⟨true, some (lastDeadline (t0 + 400) rest)⟩, [(t0, true)]) ∧
      vadFinish tEnd ⟨true, some (lastDeadline (t0 + 400) rest)⟩ =
        (⟨false, none⟩, [(lastDeadline (t0 + 400) rest, false)])) := by
  refine ⟨?_, ?_, ?_, ?_⟩
  · intro t samples h
    simp [processAudioFrame, h, vadFrame, fireDueTimer, vadInit]
  · intro t d samples h ht
    simp [processAudioFrame, h, vadFrame, fireDueTimer, not_lt.mpr ht]
  · intro t d samples h ht
    simp [processAudioFrame, h, vadFrame, fireDueTimer, not_lt.mpr ht]
  · intro t0 rest tEnd hchain hle
    refine ⟨?_, by simp [vadFinish, hle]⟩
    simp [vadRun, vadFrame, fireDueTimer, vadInit,
      vadRun_loud_chain rest (t0 + 400) hchain, lastDeadline]

/-- Witness for C7 at the frame times of the specification examples: an
above-threshold frame at t = 0 starts speaking at 0 and arms the timer
for 400; exceedances at 0, 300 and 600 keep speaking continuously, with
the single stop firing exactly at 1000. -/
theorem vad_debounce_behaviour_witness :
    processAudioFrame 0 [1/10] vadInit =
      (⟨true, some 400⟩, [(0, true)]) ∧
    vadRun (([0, 300, 600] : List ℚ).map fun t => (t, true)) vadInit =
      (⟨true, some 1000⟩, [(0, true)]) ∧
    vadFinish 1000 (⟨true, some 1000⟩ : VadState) =
      (⟨false, none⟩, [(1000, false)]) := by
  have h1 := vad_debounce_behaviour.1 0 [1/10]
    (by norm_num [rmsExceedsThreshold, sumSquares])
  have h4 := vad_debounce_behaviour.2.2.2 0 [300, 600] 1000
    (by norm_num [chainOk]) (by norm_num [lastDeadline])
  norm_num [lastDeadline] at h4
  exact ⟨by simpa using h1, h4.1, h4.2⟩

/-- Claim C2, counterexample: a tool call whose name is not among the
declared tools still receives a tool response — the response send (lines
384-393) is outside the if/else chain and runs for every call, with the
result left as the initial empty object. -/
theorem unknown_tool_call_still_gets_response :
    V1.handleToolCalls [⟨"call-7", "selfDestruct"⟩] =
      [⟨"call-7", "selfDestruct", ToolResultValue.emptyObj⟩] ∧
    "selfDestruct" ∉ declaredToolNames ∧
    V1.handleToolCalls [⟨"call-7", "selfDestruct"⟩] ≠ [] := by
  refine ⟨rfl, by decide, by decide⟩

/-- Claim C2 (amended): for every inbound message carrying tool calls, a
call whose name is not among the declared tools executes no handler
branch, so its result remains the empty object, but a tool response for
that call, carrying the empty result, is still sent; exactly one response
is sent per call. -/
theorem unknown_tool_executes_nothing_but_answers
    (calls : List ToolCall) (fc : ToolCall) (hmem : fc ∈ calls)
    (hunk : fc.name ∉ declaredToolNames) :
    V1.dispatchToolResult fc.name = ToolResultValue.emptyObj ∧
    (⟨fc.id, fc.name, ToolResultValue.emptyObj⟩ : ToolResponse) ∈
      V1.handleToolCalls calls ∧
    (V1.handleToolCalls calls).length = calls.length := by
  have hres : V1.dispatchToolResult fc.name = ToolResultValue.emptyObj := by
    simp [declaredToolNames] at hunk
    obtain ⟨h1, h2, h3, h4, h5, h6⟩ := hunk
    simp [V1.dispatchToolResult, h1, h2, h3, h4, h5, h6]
  refine ⟨hres, ?_, by simp [V1.handleToolCalls]⟩
  have hmap : (⟨fc.id, fc.name, V1.dispatchToolResult fc.name⟩ :
      ToolResponse) ∈ V1.handleToolCalls calls :=
    List.mem_map.mpr ⟨fc, hmem, rfl⟩
  rwa [hres] at hmap

/-- Witness for the amended C2: a single undeclared call receives exactly
one response with the empty result. -/
theorem unknown_tool_executes_nothing_but_answers_witness :
    V1.dispatchToolResult "warpDrive" = ToolResultValue.emptyObj ∧
    (⟨"call-9", "warpDrive", ToolResultValue.emptyObj⟩ : ToolResponse) ∈
      V1.handleToolCalls [⟨"call-9", "warpDrive"⟩] ∧
    (V1.handleToolCalls [(⟨"call-9", "warpDrive"⟩ : ToolCall)]).length =
      [(⟨"call-9", "warpDrive"⟩ : ToolCall)].length :=
  unknown_tool_executes_nothing_but_answers
    [(⟨"call-9", "warpDrive"⟩ : ToolCall)]
    (⟨"call-9", "warpDrive"⟩ : ToolCall)
    (List.mem_singleton.mpr rfl) (by decide)

/-- Claim C9: the claim states what the specification requires and what
the second JarvisService implements (its ON handler acquires a camera
stream only when none is held), but the first JarvisService (lines
419-435) violates it.  Evaluated at the failing input — two consecutive
ON calls — the first version has acquired two streams and stream 0,
acquired by the first call, is leaked: neither stopped nor referenced.
The second version acquires nothing on the repeated ON.  The OFF call and
the disconnect release path do stop the held stream, as claimed. -/
theorem flashlight_double_on_first_version_leaks :
    V1.handleFlashlight true (V1.handleFlashlight true flashlightInit) =
      ⟨some 1, 2, []⟩ ∧
    streamLeaked
      (V1.handleFlashlight true (V1.handleFlashlight true flashlightInit))
      0 = true ∧
    V2.handleFlashlight true (V2.handleFlashlight true flashlightInit) =
      V2.handleFlashlight true flashlightInit ∧
    V1.handleFlashlight false (V1.handleFlashlight true flashlightInit) =
      ⟨none, 1, [0]⟩ ∧
    disconnectVideoRelease (V1.handleFlashlight true flashlightInit) =
      ⟨none, 1, [0]⟩ := by
  decide

/-- Claim C10: SPOTIFY and CAMERA are both declared in the openApp tool
schema, yet handleOpenApp of the first JarvisService opens no URL for
them (the switch falls through to the default and returns), while
handleMessage still sends back a tool response whose result is the status
opened object — identical to the result for an app, such as YOUTUBE,
that was actually opened. -/
theorem spotify_camera_report_opened_without_opening :
    (∀ (enc : String → String) (query : String),
      V1.handleOpenApp enc "SPOTIFY" query = none ∧
      V1.handleOpenApp enc "CAMERA" query = none ∧
      V1.handleOpenApp enc "YOUTUBE" "" = some "https://www.youtube.com") ∧
    "SPOTIFY" ∈ openAppNames ∧
    "CAMERA" ∈ openAppNames ∧
    V1.dispatchToolResult "openApp" = ToolResultValue.statusOpened ∧
    (∀ i : String, V1.handleToolCalls [⟨i, "openApp"⟩] =
      [⟨i, "openApp", ToolResultValue.statusOpened⟩]) := by
  refine ⟨?_, by decide, by decide, by decide, ?_⟩
  · intro enc query
    refine ⟨?_, ?_, ?_⟩ <;> simp [V1.handleOpenApp]
  · intro i
    simp [V1.handleToolCalls, V1.dispatchToolResult]

end Jarvis
